import Mathlib

/-!
Verification of the job-lifecycle orchestration layer of the gretel-python-client
repository: the completion poller (`BaseReport._await_completion`), the CLI
record-handler pipeline (`records.py`), and the report accessor guards
(`evaluation/reports.py`), shallowly embedded in Lean 4.
-/

namespace Gretel

/-- Modelled from the spec: the `Status` enum of `gretel_client.projects.jobs`
(that module is not part of the analysed sources; only its importers are).
Spec section 4.5 lists the states CREATED/PENDING, ACTIVE/RUNNING, COMPLETED,
ERROR, CANCELLED, LOST. -/
inductive Status
  | created
  | pending
  | active
  | running
  | completed
  | error
  | cancelled
  | lost
deriving DecidableEq, Repr

/-- Modelled from the spec: `END_STATES` of `gretel_client.projects.jobs`
(not in the analysed sources). Spec section 4.5: COMPLETED, ERROR, CANCELLED
and LOST are terminal, everything else is non-terminal. -/
def END_STATES : List Status :=
  [Status.completed, Status.error, Status.cancelled, Status.lost]

/-- Outcome of one `job.refresh()` call inside the polling loop: either the
refresh raises, or it succeeds and leaves `job.status` equal to the given
status. -/
inductive RefreshOutcome
  | fail
  | success (st : Status)
deriving DecidableEq, Repr

/-- How one run of `BaseReport._await_completion` ends. -/
inductive PollResult
  | completed
  | jobFailed
  | lostContact
  | pendingMore
deriving DecidableEq, Repr

/-- Observable trace of one run of `BaseReport._await_completion`:
how it ended, how many `job.refresh()` calls were made, and how many of them
failed (each failure is one increment of the `refresh_attempts` counter in
the source). -/
structure PollTrace where
  result : PollResult
  refreshCalls : Nat
  failedRefreshes : Nat
deriving DecidableEq, Repr

/-- `BaseReport._await_completion` (evaluation/reports.py, lines 87-115),
driven by a finite list of refresh outcomes.  `attempts` is the
`refresh_attempts` consecutive-failure counter and `status` the last observed
`job.status`.  Each loop iteration first checks `refresh_attempts >= 5`
(raising the lost-contact ModelRunException), then performs one refresh
(consuming one outcome; a failure leaves `job.status` unchanged and
increments the counter, a success overwrites `job.status` and resets the
counter to zero), then inspects `job.status`: COMPLETED breaks out of the
loop, any other member of END_STATES raises the finished-unsuccessfully
ModelRunException, anything else continues the loop.  An exhausted outcome
list is reported as `pendingMore`. -/
def await_completion (attempts : Nat) (status : Status) :
    List RefreshOutcome → PollTrace
  | [] =>
    if 5 ≤ attempts then ⟨PollResult.lostContact, 0, 0⟩
    else ⟨PollResult.pendingMore, 0, 0⟩
  | o :: rest =>
    if 5 ≤ attempts then ⟨PollResult.lostContact, 0, 0⟩
    else
      match o with
      | RefreshOutcome.fail =>
        if status = Status.completed then ⟨PollResult.completed, 1, 1⟩
        else if status ∈ END_STATES then ⟨PollResult.jobFailed, 1, 1⟩
        else
          let t := await_completion (attempts + 1) status rest
          ⟨t.result, t.refreshCalls + 1, t.failedRefreshes + 1⟩
      | RefreshOutcome.success st =>
        if st = Status.completed then ⟨PollResult.completed, 1, 0⟩
        else if st ∈ END_STATES then ⟨PollResult.jobFailed, 1, 0⟩
        else
          let t := await_completion 0 st rest
          ⟨t.result, t.refreshCalls + 1, t.failedRefreshes⟩

example :
    await_completion 0 Status.running
      [RefreshOutcome.fail, RefreshOutcome.fail,
       RefreshOutcome.success Status.running,
       RefreshOutcome.fail, RefreshOutcome.fail, RefreshOutcome.fail,
       RefreshOutcome.fail, RefreshOutcome.fail] =
    ⟨PollResult.lostContact, 8, 7⟩ := by decide

example :
    await_completion 0 Status.running (List.replicate 7 RefreshOutcome.fail) =
    ⟨PollResult.lostContact, 5, 5⟩ := by decide

example :
    await_completion 0 Status.completed [RefreshOutcome.fail] =
    ⟨PollResult.completed, 1, 1⟩ := by decide

/-- Modelled from the spec: the `RunnerMode` enum of `gretel_client.config`
(not in the analysed sources).  Spec section 3: RunMode is the enum
{CLOUD, LOCAL, MANUAL}; `records.py` compares CLI runner strings against the
members' `.value` strings and rebuilds the enum via `RunnerMode(runner)`. -/
inductive RunnerMode
  | CLOUD
  | LOCAL
  | MANUAL
deriving DecidableEq, Repr

/-- Modelled from the spec: the string payloads of the `RunnerMode` members,
the lower-case mode names used as CLI `--runner` values. -/
def RunnerMode.value : RunnerMode → String
  | RunnerMode.CLOUD => "cloud"
  | RunnerMode.LOCAL => "local"
  | RunnerMode.MANUAL => "manual"

/-- The reserved sentinel `LOCAL = "__local__"` (cli/records.py, line 28). -/
def LOCAL : String := "__local__"

/-- Python truthiness of an optional CLI string value: `None` and the empty
string are falsy, every other string is truthy. -/
def pyTruthy : Option String → Bool
  | none => false
  | some s => !s.isEmpty

/-- A raised `click.BadOptionUsage(option_name, message)`. -/
structure BadOptionUsage where
  option_name : String
  message : String
deriving DecidableEq, Repr

/-- `_validate_params` (cli/records.py, lines 65-95): the five flag rules,
checked in source order; `some e` is the first `click.BadOptionUsage` raised,
`none` means the parameters pass validation.  The `in_data` argument is
accepted and ignored exactly as in the source. -/
def validate_params (is_cloud_model : Bool) (runner : String)
    (output model_path in_data : Option String) : Option BadOptionUsage :=
  if runner = RunnerMode.CLOUD.value ∧ pyTruthy model_path then
    some ⟨"--model-path", "A model path may not be specified for cloud models."⟩
  else if ¬is_cloud_model ∧ runner = RunnerMode.LOCAL.value ∧ ¬pyTruthy model_path then
    some ⟨"--model-path", "--model-path is required when running a local model."⟩
  else if runner = RunnerMode.LOCAL.value ∧ ¬pyTruthy output then
    some ⟨"--output",
      "--runner is set to local, but no --output flag is set. Please set an output path."⟩
  else if runner = RunnerMode.LOCAL.value ∧ is_cloud_model ∧ pyTruthy model_path then
    some ⟨"--model-path", "Cannot specify the local model path for cloud models."⟩
  else if runner = RunnerMode.MANUAL.value ∧ (pyTruthy output ∨ pyTruthy model_path) then
    some ⟨"--runner",
      "--runner manual cannot be used together with any of --output, --model-path."⟩
  else
    none

/-- `_check_model_and_runner` (cli/records.py, lines 98-108): a CLOUD run
requested for a model that is not a cloud model is downgraded to LOCAL
(logging the override); every other request is returned unchanged.  The
source compares `runner is RunnerMode.CLOUD.value`; the comparison is
embedded as string equality. -/
def check_model_and_runner (is_cloud_model : Bool) (runner : String) : String :=
  if ¬is_cloud_model ∧ runner = RunnerMode.CLOUD.value then RunnerMode.LOCAL.value
  else runner

/-- `_configure_data_source` (cli/records.py, lines 111-135) together with
the remote calls it performs: the first component is the service-facing data
source, the second the list of artifacts uploaded via
`sc.project.upload_artifact`.  `upload` stands in for the opaque
artifact-upload operation. -/
def configure_data_source_call (upload : String → String) (in_data : Option String)
    (runner : String) : Option String × List String :=
  match in_data with
  | none => (none, [])
  | some d =>
    if runner = RunnerMode.MANUAL.value then (some d, [])
    else if runner = RunnerMode.CLOUD.value then (some (upload d), [d])
    else (some LOCAL, [])

/-- `_configure_data_source`, just the returned service-facing value. -/
def configure_data_source (upload : String → String) (in_data : Option String)
    (runner : String) : Option String :=
  (configure_data_source_call upload in_data runner).1

/-- `RefData` (cli/utils/parser_utils): a keyed mapping of reference-data
names to data-source locators, carried as an association list. -/
structure RefData where
  ref_dict : List (String × String)
deriving DecidableEq, Repr

/-- `RefData.is_empty`: whether the mapping holds no entries. -/
def RefData.is_empty (rd : RefData) : Bool :=
  rd.ref_dict.isEmpty

/-- `ref_data_factory`: build a `RefData` from a dictionary. -/
def ref_data_factory (d : List (String × String)) : RefData :=
  ⟨d⟩

/-- The CLOUD branch body of `_configure_ref_data`: upload every value and
rebuild the mapping from the uploaded URIs via `ref_data_factory`. -/
def refDataUploadAll (upload : String → String) (rd : RefData) : RefData :=
  ref_data_factory (rd.ref_dict.map fun kv => (kv.1, upload kv.2))

/-- The else branch body of `_configure_ref_data`: overwrite every value of
`ref_dict` with the reserved sentinel `LOCAL`. -/
def refDataAllLocal (rd : RefData) : RefData :=
  ⟨rd.ref_dict.map fun kv => (kv.1, LOCAL)⟩

/-- `_configure_ref_data` (cli/records.py, lines 138-153) at the level of
values, together with its remote calls: first component the returned
service-facing `RefData`, second the list of uploaded artifacts.  A
non-empty mapping under MANUAL is returned unchanged; a non-empty mapping
under CLOUD is rebuilt from uploaded URIs; in every other case each value of
the mapping is replaced by the sentinel `LOCAL`. -/
def configure_ref_data_call (upload : String → String) (rd : RefData)
    (runner : String) : RefData × List String :=
  if rd.is_empty = false ∧ runner = RunnerMode.MANUAL.value then (rd, [])
  else if rd.is_empty = false ∧ runner = RunnerMode.CLOUD.value then
    (refDataUploadAll upload rd, rd.ref_dict.map Prod.snd)
  else (refDataAllLocal rd, [])

/-- `_configure_ref_data`, just the returned service-facing value. -/
def configure_ref_data (upload : String → String) (rd : RefData)
    (runner : String) : RefData :=
  (configure_ref_data_call upload rd runner).1

/-- A store of Python `RefData` objects, keyed by object identity, used to
track which object `_configure_ref_data` mutates in place.  `next` is the
next fresh identity; identities below `next` are live. -/
structure ObjHeap where
  next : Nat
  val : Nat → RefData

/-- Allocate a fresh `RefData` object holding value `v`. -/
def ObjHeap.alloc (h : ObjHeap) (v : RefData) : Nat × ObjHeap :=
  (h.next, ⟨h.next + 1, fun i => if i = h.next then v else h.val i⟩)

/-- Mutate the object with identity `i` in place. -/
def ObjHeap.write (h : ObjHeap) (i : Nat) (v : RefData) : ObjHeap :=
  ⟨h.next, fun j => if j = i then v else h.val j⟩

/-- `_configure_ref_data` (cli/records.py, lines 138-153) at the level of
objects: given the identity `ref` of the argument object, return the identity
of the returned object and the heap after the call.  The MANUAL branch
returns the argument object untouched; the CLOUD branch rebinds the local
name to a fresh object built by `ref_data_factory`, leaving the argument
object untouched; the else branch mutates the argument object's `ref_dict`
in place (`ref_data.ref_dict[key] = LOCAL`) and returns that same object. -/
def configure_ref_data_heap (upload : String → String) (h : ObjHeap)
    (ref : Nat) (runner : String) : Nat × ObjHeap :=
  let rd := h.val ref
  if rd.is_empty = false ∧ runner = RunnerMode.MANUAL.value then (ref, h)
  else if rd.is_empty = false ∧ runner = RunnerMode.CLOUD.value then
    h.alloc (refDataUploadAll upload rd)
  else (ref, h.write ref (refDataAllLocal rd))

/-- The reference-data resolution step of the `run` command
(cli/records.py, lines 420-424): the caller's mapping lives at identity
`orig`; the command passes `deepcopy(ref_data)` — a freshly allocated object
with the same value — into `_configure_ref_data` and keeps the returned
object as the service-facing `config_ref_data`. -/
def run_resolve_ref_data (upload : String → String) (h : ObjHeap)
    (orig : Nat) (runner : String) : Nat × ObjHeap :=
  let copy := h.alloc (h.val orig)
  configure_ref_data_heap upload copy.2 copy.1 runner

/-- The remote side effects of one CLI record-handler invocation: the
artifacts uploaded via `sc.project.upload_artifact`, and whether
`record_handler._submit` was reached. -/
structure RemoteEffects where
  uploads : List String
  submitted : Bool
deriving DecidableEq, Repr

/-- The front half of the `run` command (cli/records.py, lines 394-430) up
to record-handler submission: runner-mode reconciliation, parameter
validation (note the source passes `None` for `in_data` here), data-source
resolution guarded by the truthiness of `in_data`, and reference-data
resolution of `ref_data_factory(ref_data)`.  Returns the raised
`BadOptionUsage`, if any, together with the remote calls performed before
the command stopped. -/
def run_pipeline (upload : String → String) (is_cloud_model : Bool)
    (runner0 : String) (in_data : Option String)
    (ref_tuple : List (String × String)) (output model_path : Option String) :
    Option BadOptionUsage × RemoteEffects :=
  let runner := check_model_and_runner is_cloud_model runner0
  match validate_params is_cloud_model runner output model_path none with
  | some e => (some e, ⟨[], false⟩)
  | none =>
    let ds :=
      if pyTruthy in_data then configure_data_source_call upload in_data runner
      else (none, [])
    let cfg := configure_ref_data_call upload (ref_data_factory ref_tuple) runner
    (none, ⟨ds.2 ++ cfg.2, true⟩)

/-- The observable outcome of the tail of `create_and_run_record_handler`
(cli/records.py, lines 222-253), entered when `poll_and_print` has returned:
whether cloud artifacts were downloaded, whether the local container's
output directory was extracted, whether the failure branch logged
`record_handler.errors` and the status, and the exit code passed to
`sc.exit`, if any. -/
structure HandlerOutcome where
  downloaded_cloud : Bool
  extracted_local : Bool
  logged_errors : Bool
  exit_code : Option Nat
deriving DecidableEq, Repr

/-- The tail of `create_and_run_record_handler` (cli/records.py, lines
222-253).  `run` is a live `ContainerRun` exactly when the runner is LOCAL
(lines 204-206).  After polling, cloud artifacts are downloaded when an
output directory is set and the runner is CLOUD, and the container output is
extracted when an output directory is set and a local run exists — both
before the status branch; only then does the status branch either log the
success hints (COMPLETED) or log `record_handler.errors` plus the status and
call `sc.exit(1)`. -/
def finalize_record_handler (runner : String) (output : Option String)
    (status : Status) : HandlerOutcome :=
  let hasLocalRun := runner = RunnerMode.LOCAL.value
  let downloaded := pyTruthy output ∧ runner = RunnerMode.CLOUD.value
  let extracted := pyTruthy output ∧ hasLocalRun
  if status = Status.completed then ⟨downloaded, extracted, false, none⟩
  else ⟨downloaded, extracted, true, some 1⟩

/-- `ReportDictType = Dict[str, Any]` (evaluation/reports.py):
the report payload, carried as an association list. -/
abbrev ReportDictType : Type :=
  List (String × String)

/-- The ways a report accessor can fail: the `ModelRunException` raised by
`_check_model_run` with its message, or the `AttributeError` Python raises
when `_report_dict`/`_report_html` was never assigned. -/
inductive ReportAccessErr
  | modelRunExc (msg : String)
  | attributeNotSet
deriving DecidableEq, Repr

/-- `_model_run_exc_message` (evaluation/reports.py, line 24). -/
def model_run_exc_message : String :=
  "Please run the model to generate the report."

/-- The mutable state of a `BaseReport` (evaluation/reports.py): the
`_model_run` flag (class default `False`) and the `_report_dict` /
`_report_html` attributes, `none` while unassigned. -/
structure BaseReport where
  model_run : Bool
  report_dict : Option ReportDictType
  report_html : Option String

/-- `BaseReport._check_model_run` (evaluation/reports.py, lines 155-157):
raise `ModelRunException(_model_run_exc_message)` unless `_model_run` is
set. -/
def check_model_run (r : BaseReport) : Except ReportAccessErr Unit :=
  if r.model_run = false then Except.error (ReportAccessErr.modelRunExc model_run_exc_message)
  else Except.ok ()

/-- The `as_dict` property (evaluation/reports.py, lines 159-163): guard via
`_check_model_run`, then return `_report_dict`. -/
def as_dict (r : BaseReport) : Except ReportAccessErr ReportDictType :=
  match check_model_run r with
  | Except.error e => Except.error e
  | Except.ok _ =>
    match r.report_dict with
    | some d => Except.ok d
    | none => Except.error ReportAccessErr.attributeNotSet

/-- The `as_html` property (evaluation/reports.py, lines 165-169): guard via
`_check_model_run`, then return `_report_html`. -/
def as_html (r : BaseReport) : Except ReportAccessErr String :=
  match check_model_run r with
  | Except.error e => Except.error e
  | Except.ok _ =>
    match r.report_html with
    | some html => Except.ok html
    | none => Except.error ReportAccessErr.attributeNotSet

/-- `BaseReport.run` = `_run` (evaluation/reports.py, lines 81-85 and
144-153): `_run_in_project` builds the model and calls `_run_model`, which
for CLOUD runs `_run_cloud` and for LOCAL runs `_run_local` — both either
raise (a failed job) or assign `_report_dict` and `_report_html` from the
job's artifacts, here abstracted as `jobOutcome` — and for any other runner
mode does nothing at all.  Only after `_run_in_project` returns is
`_model_run` set to `True`. -/
def run_report (runner : RunnerMode)
    (jobOutcome : Except String (ReportDictType × String)) (r : BaseReport) :
    Except String BaseReport :=
  match runner with
  | RunnerMode.CLOUD | RunnerMode.LOCAL =>
    match jobOutcome with
    | Except.error e => Except.error e
    | Except.ok dh =>
      Except.ok { r with
        report_dict := some dh.1, report_html := some dh.2, model_run := true }
  | RunnerMode.MANUAL => Except.ok { r with model_run := true }

theorem completed_mem_end_states : Status.completed ∈ END_STATES := by decide

/-- If every refresh fails and the last observed status is non-terminal, the
polling loop makes exactly `5 - attempts` further refresh calls, all failing,
and then raises the lost-contact exception. -/
theorem await_completion_all_fail (n a : Nat) (st : Status)
    (hst : st ∉ END_STATES) (h : 5 ≤ a + n) :
    await_completion a st (List.replicate n RefreshOutcome.fail) =
      ⟨PollResult.lostContact, 5 - a, 5 - a⟩ := by
  induction n generalizing a with
  | zero =>
    have ha : 5 ≤ a := by omega
    have h0 : 5 - a = 0 := by omega
    simp [await_completion, ha, h0]
  | succ n ih =>
    by_cases ha : 5 ≤ a
    · have h0 : 5 - a = 0 := by omega
      simp [List.replicate_succ, await_completion, ha, h0]
    · have hne : st ≠ Status.completed := fun hc =>
        hst (hc ▸ completed_mem_end_states)
      have ih2 := ih (a + 1) (by omega)
      simp [List.replicate_succ, await_completion, ha, hne, hst, ih2]
      omega

/-- C2: for a job first observed in a non-terminal status, if every refresh
attempt fails then `_await_completion` raises the lost-contact error after
exactly 5 refresh attempts (all of them failures) and performs no further
refresh attempt, no matter how many more failing refreshes the environment
would have supplied. -/
theorem poller_lost_contact_after_exactly_five (st : Status) (n : Nat)
    (hst : st ∉ END_STATES) (hn : 5 ≤ n) :
    await_completion 0 st (List.replicate n RefreshOutcome.fail) =
      ⟨PollResult.lostContact, 5, 5⟩ := by
  simpa using await_completion_all_fail n 0 st hst (by omega)

theorem poller_lost_contact_after_exactly_five_witness :
    Status.running ∉ END_STATES ∧ 5 ≤ 9 ∧
    await_completion 0 Status.running (List.replicate 9 RefreshOutcome.fail) =
      ⟨PollResult.lostContact, 5, 5⟩ :=
  ⟨by decide, by decide,
    poller_lost_contact_after_exactly_five Status.running 9 (by decide) (by decide)⟩

/-- C1: the consecutive-failure counter resets to zero after any successful
refresh — after a successful refresh to a non-terminal status, the rest of
the loop behaves exactly like a fresh run with counter 0 — and on the
outcome sequence [fail, fail, success(RUNNING), fail, fail, fail, fail,
fail] the lost-contact error is raised only after the fifth failure
following the reset: the 7-outcome prefix is still pending with 6 failed
refresh attempts, while the full sequence ends in lost contact after 8
refresh calls of which 7 failed (the `refresh_attempts` counter was
incremented 7 times in total, not 5). -/
theorem poller_counter_resets_then_lost_contact :
    (∀ (attempts : Nat) (st st2 : Status) (rest : List RefreshOutcome),
        attempts < 5 → st2 ∉ END_STATES →
        await_completion attempts st (RefreshOutcome.success st2 :: rest) =
          ⟨(await_completion 0 st2 rest).result,
           (await_completion 0 st2 rest).refreshCalls + 1,
           (await_completion 0 st2 rest).failedRefreshes⟩) ∧
    await_completion 0 Status.running
      [RefreshOutcome.fail, RefreshOutcome.fail,
       RefreshOutcome.success Status.running,
       RefreshOutcome.fail, RefreshOutcome.fail, RefreshOutcome.fail,
       RefreshOutcome.fail] =
      ⟨PollResult.pendingMore, 7, 6⟩ ∧
    await_completion 0 Status.running
      [RefreshOutcome.fail, RefreshOutcome.fail,
       RefreshOutcome.success Status.running,
       RefreshOutcome.fail, RefreshOutcome.fail, RefreshOutcome.fail,
       RefreshOutcome.fail, RefreshOutcome.fail] =
      ⟨PollResult.lostContact, 8, 7⟩ := by
  refine ⟨?_, by decide, by decide⟩
  intro attempts st st2 rest ha hst2
  have hna : ¬ 5 ≤ attempts := by omega
  have hne : st2 ≠ Status.completed := fun hc =>
    hst2 (hc ▸ completed_mem_end_states)
  simp [await_completion, hna, hne, hst2]

theorem poller_counter_resets_then_lost_contact_witness :
    2 < 5 ∧ Status.running ∉ END_STATES ∧
    await_completion 2 Status.pending
        [RefreshOutcome.success Status.running, RefreshOutcome.fail] =
      ⟨(await_completion 0 Status.running [RefreshOutcome.fail]).result,
       (await_completion 0 Status.running [RefreshOutcome.fail]).refreshCalls + 1,
       (await_completion 0 Status.running [RefreshOutcome.fail]).failedRefreshes⟩ :=
  ⟨by decide, by decide,
    poller_counter_resets_then_lost_contact.1 2 Status.pending Status.running
      [RefreshOutcome.fail] (by decide) (by decide)⟩

/-- C3 counterexample: the artifact download and extraction steps sit before
the status branch in `create_and_run_record_handler`, so when the poller
returns with the job in the terminal status ERROR, runner CLOUD and an
output directory set, the failure branch logs the errors and exits 1 — but
the cloud artifact download has still been performed, contradicting the
claim that no artifact materialization happens for a non-COMPLETED job. -/
theorem finalize_downloads_despite_failure :
    finalize_record_handler RunnerMode.CLOUD.value (some "outdir") Status.error =
      ⟨true, false, true, some 1⟩ := by decide

/-- C3 amended: when the poller returns with the job in any non-COMPLETED
status, `create_and_run_record_handler` logs the job's error list and status
and exits with code 1; however, the cloud artifact download (exactly when an
output directory is set and the runner is CLOUD) and the local container
extraction (exactly when an output directory is set and the runner is LOCAL)
are performed before the status branch, for failed jobs as well. -/
theorem finalize_failure_branch (runner : String) (output : Option String)
    (status : Status) (h : status ≠ Status.completed) :
    (finalize_record_handler runner output status).logged_errors = true ∧
    (finalize_record_handler runner output status).exit_code = some 1 ∧
    ((finalize_record_handler runner output status).downloaded_cloud = true ↔
      (pyTruthy output = true ∧ runner = RunnerMode.CLOUD.value)) ∧
    ((finalize_record_handler runner output status).extracted_local = true ↔
      (pyTruthy output = true ∧ runner = RunnerMode.LOCAL.value)) := by
  simp [finalize_record_handler, h]

theorem finalize_failure_branch_witness :
    Status.error ≠ Status.completed ∧
    (finalize_record_handler RunnerMode.LOCAL.value (some "out") Status.error).logged_errors
      = true ∧
    (finalize_record_handler RunnerMode.LOCAL.value (some "out") Status.error).exit_code
      = some 1 :=
  ⟨by decide,
   (finalize_failure_branch RunnerMode.LOCAL.value (some "out") Status.error
      (by decide)).1,
   (finalize_failure_branch RunnerMode.LOCAL.value (some "out") Status.error
      (by decide)).2.1⟩

/-- Under runner `"local"`, `_configure_ref_data` always takes the else
branch and overwrites every value with the sentinel. -/
theorem configure_ref_data_local_eq (upload : String → String) (rd : RefData) :
    configure_ref_data upload rd RunnerMode.LOCAL.value = refDataAllLocal rd := by
  unfold configure_ref_data configure_ref_data_call
  have h1 : ¬(rd.is_empty = false ∧ RunnerMode.LOCAL.value = RunnerMode.MANUAL.value) :=
    fun hc => absurd hc.2 (by decide)
  have h2 : ¬(rd.is_empty = false ∧ RunnerMode.LOCAL.value = RunnerMode.CLOUD.value) :=
    fun hc => absurd hc.2 (by decide)
  rw [if_neg h1, if_neg h2]

/-- C4: resolving any non-None input path under runner LOCAL yields the
reserved sentinel `"__local__"` and (for any path other than the sentinel
itself) never the original path, and `_configure_ref_data` under LOCAL maps
every key of a non-empty mapping to that same sentinel, so no service-facing
data or ref-data value is a genuine local filesystem path. -/
theorem local_mode_substitutes_sentinel :
    (∀ (upload : String → String) (d : String),
        configure_data_source upload (some d) RunnerMode.LOCAL.value = some LOCAL) ∧
    (∀ (upload : String → String) (d : String), d ≠ LOCAL →
        configure_data_source upload (some d) RunnerMode.LOCAL.value ≠ some d) ∧
    (∀ (upload : String → String) (rd : RefData) (k v : String),
        rd.is_empty = false →
        (k, v) ∈ (configure_ref_data upload rd RunnerMode.LOCAL.value).ref_dict →
        v = LOCAL) := by
  refine ⟨fun upload d => rfl, ?_, ?_⟩
  · intro upload d hd hc
    have h1 : configure_data_source upload (some d) RunnerMode.LOCAL.value =
        some LOCAL := rfl
    rw [h1] at hc
    exact hd (Option.some.injEq _ _ ▸ hc).symm
  · intro upload rd k v hemp hmem
    rw [configure_ref_data_local_eq] at hmem
    rcases List.mem_map.mp hmem with ⟨kv, hkv, heq⟩
    injection heq with hk hv
    exact hv.symm

theorem local_mode_substitutes_sentinel_witness :
    ("train.csv" ≠ LOCAL) ∧
    (RefData.is_empty ⟨[("a", "x.csv")]⟩ = false) ∧
    configure_data_source id (some "train.csv") RunnerMode.LOCAL.value ≠
      some "train.csv" ∧
    "__local__" = LOCAL :=
  ⟨by decide, rfl,
   local_mode_substitutes_sentinel.2.1 id "train.csv" (by decide),
   local_mode_substitutes_sentinel.2.2 id ⟨[("a", "x.csv")]⟩ "a" "__local__"
     rfl (by decide)⟩

/-- C5: `_check_model_and_runner` returns LOCAL exactly in the silent-upgrade
case — the model is not a cloud model and the requested runner is CLOUD —
and returns the requested runner unchanged in every other case. -/
theorem check_model_and_runner_spec :
    (check_model_and_runner false RunnerMode.CLOUD.value = RunnerMode.LOCAL.value) ∧
    (∀ runner : String, check_model_and_runner true runner = runner) ∧
    (∀ (is_cloud_model : Bool) (runner : String),
        runner ≠ RunnerMode.CLOUD.value →
        check_model_and_runner is_cloud_model runner = runner) := by
  refine ⟨rfl, ?_, ?_⟩
  · intro runner
    simp [check_model_and_runner]
  · intro m runner h
    simp [check_model_and_runner, h]

theorem check_model_and_runner_spec_witness :
    check_model_and_runner false RunnerMode.CLOUD.value = RunnerMode.LOCAL.value ∧
    check_model_and_runner true "cloud" = "cloud" ∧
    ("manual" ≠ RunnerMode.CLOUD.value) ∧
    check_model_and_runner false "manual" = "manual" :=
  ⟨check_model_and_runner_spec.1,
   check_model_and_runner_spec.2.1 "cloud",
   by decide,
   check_model_and_runner_spec.2.2 false "manual" (by decide)⟩

/-- C6 counterexample: a LOCAL submission against a non-cloud model with
neither an output directory nor a model path does not raise the `--output`
error — the `--model-path` rule fires first, so the configuration error
names `--model-path` instead. -/
theorem run_pipeline_missing_model_path_first :
    (run_pipeline id false "local" (some "in.csv") [] none none).1 =
      some ⟨"--model-path", "--model-path is required when running a local model."⟩ ∧
    Option.map BadOptionUsage.option_name
        (run_pipeline id false "local" (some "in.csv") [] none none).1 ≠
      some "--output" := by decide

/-- C6 amended: a LOCAL submission against a non-cloud model with a
(non-empty) model path supplied but no output directory raises the
configuration error naming `--output`, with no artifact uploaded and no
record handler submitted — so before any remote call; when the model path is
also absent, the `--model-path` error is raised first instead. -/
theorem run_pipeline_local_no_output (upload : String → String)
    (in_data : Option String) (ref_tuple : List (String × String)) (mp : String)
    (hmp : mp ≠ "") :
    run_pipeline upload false "local" in_data ref_tuple none (some mp) =
      (some ⟨"--output",
        "--runner is set to local, but no --output flag is set. Please set an output path."⟩,
       ⟨[], false⟩) := by
  have h1 : check_model_and_runner false "local" = "local" := rfl
  have hE : mp.isEmpty = false := by
    cases hb : mp.isEmpty
    · rfl
    · exact absurd ((String.isEmpty_iff mp).mp hb) hmp
  have hT : pyTruthy (some mp) = true := by
    simp [pyTruthy, hE]
  have hv : validate_params false "local" none (some mp) none =
      some ⟨"--output",
        "--runner is set to local, but no --output flag is set. Please set an output path."⟩ := by
    unfold validate_params
    rw [if_neg fun hc => absurd hc.1 (by decide)]
    rw [if_neg fun hc => hc.2.2 hT]
    exact if_pos ⟨rfl, by decide⟩
  simp [run_pipeline, h1, hv]

theorem run_pipeline_local_no_output_witness :
    ("model.tar.gz" ≠ "") ∧
    run_pipeline id false "local" (some "x.csv") [("a", "b.csv")] none
        (some "model.tar.gz") =
      (some ⟨"--output",
        "--runner is set to local, but no --output flag is set. Please set an output path."⟩,
       ⟨[], false⟩) :=
  ⟨by decide,
   run_pipeline_local_no_output id (some "x.csv") [("a", "b.csv")] "model.tar.gz"
     (by decide)⟩

/-- C7: in the `run` command, reference-data resolution returns an object
distinct from the caller's original mapping, the original object's value is
unchanged by the call (it is a deep copy that `_configure_ref_data` mutates),
and the returned object holds exactly the service-facing value
`_configure_ref_data` computes from the original mapping. -/
theorem run_ref_data_preserves_original (upload : String → String) (h : ObjHeap)
    (orig : Nat) (runner : String) (hv : orig < h.next) :
    (run_resolve_ref_data upload h orig runner).2.val orig = h.val orig ∧
    (run_resolve_ref_data upload h orig runner).1 ≠ orig ∧
    (run_resolve_ref_data upload h orig runner).2.val
        (run_resolve_ref_data upload h orig runner).1 =
      configure_ref_data upload (h.val orig) runner := by
  have hno : orig ≠ h.next := by omega
  have hno1 : orig ≠ h.next + 1 := by omega
  have hns : h.next + 1 ≠ h.next := by omega
  unfold run_resolve_ref_data configure_ref_data_heap configure_ref_data
    configure_ref_data_call ObjHeap.alloc ObjHeap.write
  simp only [hno, hno1, hns, if_true, if_false, if_neg]
  split_ifs with hA hB
  · simp [hno]
    omega
  · simp [hno, hno1, hns]
    omega
  · simp [hno]
    omega

theorem run_ref_data_preserves_original_witness :
    0 < ObjHeap.next ⟨1, fun _ => ⟨[("k", "a.csv")]⟩⟩ ∧
    (run_resolve_ref_data id ⟨1, fun _ => ⟨[("k", "a.csv")]⟩⟩ 0 "local").1 ≠ 0 :=
  ⟨Nat.zero_lt_one,
   (run_ref_data_preserves_original id ⟨1, fun _ => ⟨[("k", "a.csv")]⟩⟩ 0 "local"
      Nat.zero_lt_one).2.1⟩

/-- C8: while `_model_run` is false, both report accessors fail with the
`ModelRunException` carrying the must-run-first message; and whenever
`run()` returns normally, the resulting report passes the
`_check_model_run` guard. -/
theorem report_accessors_guarded :
    (∀ r : BaseReport, r.model_run = false →
        as_dict r = Except.error (ReportAccessErr.modelRunExc model_run_exc_message) ∧
        as_html r = Except.error (ReportAccessErr.modelRunExc model_run_exc_message)) ∧
    (∀ (runner : RunnerMode) (jo : Except String (ReportDictType × String))
        (r r2 : BaseReport),
        run_report runner jo r = Except.ok r2 → check_model_run r2 = Except.ok ()) := by
  constructor
  · intro r hr
    constructor <;> simp [as_dict, as_html, check_model_run, hr]
  · intro runner jo r r2 hrun
    cases runner with
    | CLOUD =>
      cases jo with
      | error e => exact Except.noConfusion hrun
      | ok dh =>
        injection hrun with hinj
        rw [← hinj]
        simp [check_model_run]
    | LOCAL =>
      cases jo with
      | error e => exact Except.noConfusion hrun
      | ok dh =>
        injection hrun with hinj
        rw [← hinj]
        simp [check_model_run]
    | MANUAL =>
      injection hrun with hinj
      rw [← hinj]
      simp [check_model_run]

theorem report_accessors_guarded_witness :
    (BaseReport.mk false none none).model_run = false ∧
    as_dict ⟨false, none, none⟩ =
      Except.error (ReportAccessErr.modelRunExc model_run_exc_message) ∧
    run_report RunnerMode.MANUAL (Except.ok ([], "")) ⟨false, none, none⟩ =
      Except.ok ⟨true, none, none⟩ ∧
    check_model_run ⟨true, none, none⟩ = Except.ok () :=
  ⟨rfl,
   (report_accessors_guarded.1 ⟨false, none, none⟩ rfl).1,
   rfl,
   report_accessors_guarded.2 RunnerMode.MANUAL (Except.ok ([], ""))
     ⟨false, none, none⟩ ⟨true, none, none⟩ rfl⟩

/-- C9: running a report with runner mode MANUAL performs no run at all —
the state is unchanged except that `_model_run` is set to true — so later
`as_dict`/`as_html` accesses pass the must-run-first guard and instead hit
the never-populated `_report_dict`/`_report_html` attributes. -/
theorem manual_run_passes_guard_without_results
    (jo : Except String (ReportDictType × String)) (r : BaseReport)
    (hd : r.report_dict = none) (hh : r.report_html = none) :
    run_report RunnerMode.MANUAL jo r = Except.ok { r with model_run := true } ∧
    check_model_run { r with model_run := true } = Except.ok () ∧
    as_dict { r with model_run := true } =
      Except.error ReportAccessErr.attributeNotSet ∧
    as_html { r with model_run := true } =
      Except.error ReportAccessErr.attributeNotSet := by
  refine ⟨rfl, by simp [check_model_run], ?_, ?_⟩
  · simp [as_dict, check_model_run, hd]
  · simp [as_html, check_model_run, hh]

theorem manual_run_passes_guard_without_results_witness :
    (BaseReport.mk false none none).report_dict = none ∧
    as_dict ⟨true, none, none⟩ = Except.error ReportAccessErr.attributeNotSet :=
  ⟨rfl,
   (manual_run_passes_guard_without_results (Except.error "network down")
      ⟨false, none, none⟩ rfl rfl).2.2.1⟩

/-- C10: `job.status` is inspected on every loop iteration, including
iterations whose refresh failed: when the last-known status is COMPLETED, a
single failed refresh still makes `_await_completion` return normally, with
one refresh call made and no successful refresh having occurred. -/
theorem poller_returns_on_stale_completed_status :
    ∀ rest : List RefreshOutcome,
      await_completion 0 Status.completed (RefreshOutcome.fail :: rest) =
        ⟨PollResult.completed, 1, 1⟩ :=
  fun _ => rfl

end Gretel
